import Mathlib

/-!
Verification of the hologram video compositor backend (`backend/server.py`).

The development shallowly embeds the parts of the program that the
specification talks about:

* the hologram settings value object (`HologramSettings`, server.py 61-70);
* the filter-graph construction performed inline in
  `process_hologram_video` (server.py 167-220), embedded as the pure
  function `buildFilterGraph`;
* the project-record mutations performed by `process_hologram_video`
  (server.py 147-150, 257-268, 275-285), embedded as `applyEvent`;
* the `process_project` request handler (server.py 424-470), embedded as
  `processProject`, plus an interleaving model of two concurrent calls;
* `format_file_size` (server.py 119-128) and the status message of
  `get_processing_status` (server.py 480-500).

Python floats are modelled as rationals (ℚ), Python ints as ℤ/ℕ.
`int(x)` on a float is truncation toward zero (`pyInt`), `x // y` on
nonnegative ints is floor division (`Int.fdiv`).
-/

/-- Python `int(q)` for a float `q`: truncation toward zero. -/
def pyInt (q : ℚ) : ℤ := if 0 ≤ q then ⌊q⌋ else ⌈q⌉

/-- Python truthiness of an `Optional[str]`: `None` and `""` are falsy. -/
def pyTruthy : Option String → Bool
  | none => false
  | some s => !s.isEmpty

/-- The `HologramSettings` pydantic model (server.py 61-70), with the
documented defaults. -/
structure HologramSettings where
  hologram_size : ℚ := 3/10
  hologram_position_x : ℚ := 1/2
  hologram_position_y : ℚ := 1/2
  glow_intensity : ℚ := 7/10
  flicker_intensity : ℚ := 3/10
  scanlines : Bool := true
  blue_tint : Bool := true
  rotation_angle : ℚ := 0
  transparency : ℚ := 7/10
deriving DecidableEq

/-- The documented domains of the settings fields (spec section 3):
size in (0,1], positions in [0,1], glow/flicker/transparency in [0,1],
rotation in [-45,45]. -/
def Validated (s : HologramSettings) : Prop :=
  0 < s.hologram_size ∧ s.hologram_size ≤ 1 ∧
  0 ≤ s.hologram_position_x ∧ s.hologram_position_x ≤ 1 ∧
  0 ≤ s.hologram_position_y ∧ s.hologram_position_y ≤ 1 ∧
  0 ≤ s.glow_intensity ∧ s.glow_intensity ≤ 1 ∧
  0 ≤ s.flicker_intensity ∧ s.flicker_intensity ≤ 1 ∧
  -45 ≤ s.rotation_angle ∧ s.rotation_angle ≤ 45 ∧
  0 ≤ s.transparency ∧ s.transparency ≤ 1

instance (s : HologramSettings) : Decidable (Validated s) := by
  unfold Validated; infer_instance

/-- One element of the `filter_complex` list built in
`process_hologram_video` (server.py 182-220): the ffmpeg filter name, its
numeric parameters, the bracketed labels it consumes and the bracketed
labels it produces.  Each `filter_complex.append` in the source
contributes one `FilterStage`. -/
structure FilterStage where
  op : String
  params : List ℚ
  inputs : List String
  outputs : List String
deriving DecidableEq

/-- Server.py 173: `hologram_width = int(base_width * settings.hologram_size)`. -/
def hologramWidth (base_width : ℤ) (s : HologramSettings) : ℤ :=
  pyInt ((base_width : ℚ) * s.hologram_size)

/-- Server.py 174: `hologram_height = int(base_height * settings.hologram_size)`. -/
def hologramHeight (base_height : ℤ) (s : HologramSettings) : ℤ :=
  pyInt ((base_height : ℚ) * s.hologram_size)

/-- Server.py 176: `hologram_x = int((base_width - hologram_width) * settings.hologram_position_x)`. -/
def hologramX (base_width : ℤ) (s : HologramSettings) : ℤ :=
  pyInt (((base_width : ℚ) - (hologramWidth base_width s : ℚ)) * s.hologram_position_x)

/-- Server.py 177: `hologram_y = int((base_height - hologram_height) * settings.hologram_position_y)`. -/
def hologramY (base_height : ℤ) (s : HologramSettings) : ℤ :=
  pyInt (((base_height : ℚ) - (hologramHeight base_height s : ℚ)) * s.hologram_position_y)

/-- Server.py 200: `glow_radius = max(2, int(settings.glow_intensity * 10))`. -/
def glowRadius (s : HologramSettings) : ℤ := max 2 (pyInt (s.glow_intensity * 10))

/-- Server.py 208: `scanline_height = max(2, hologram_height // 100)`. -/
def scanlineHeight (base_height : ℤ) (s : HologramSettings) : ℤ :=
  max 2 (Int.fdiv (hologramHeight base_height s) 100)

/-- Server.py 215: `alpha_value = 1.0 - (settings.flicker_intensity * 0.3)`. -/
def flickerAlpha (s : HologramSettings) : ℚ := 1 - s.flicker_intensity * (3/10)

/-- The filter-graph construction of `process_hologram_video`
(server.py 182-220), as a pure function of the probed base dimensions and
the settings.  Each list element corresponds to one
`filter_complex.append(...)` of the source, in source order; the string
labels are the bracketed ffmpeg link labels of the source, and the
`last_filter` re-pointing of the source is the second component of each
intermediate pair. -/
def buildFilterGraph (base_width base_height : ℤ) (s : HologramSettings) :
    List FilterStage :=
  -- line 185: [1:v]scale=w:h[scaled]
  let scaleStage : FilterStage :=
    ⟨"scale", [(hologramWidth base_width s : ℚ), (hologramHeight base_height s : ℚ)],
     ["1:v"], ["scaled"]⟩
  -- lines 188-192: optional [scaled]colorbalance=rm=-0.3:gm=-0.2:bm=0.5[tinted]
  let afterTint : List FilterStage × String :=
    if s.blue_tint then
      ([⟨"colorbalance", [-(3/10), -(2/10), 5/10], ["scaled"], ["tinted"]⟩], "tinted")
    else ([], "scaled")
  -- lines 195-196: [last]format=rgba,colorchannelmixer=aa=transparency[transparent]
  let transparencyStage : FilterStage :=
    ⟨"format=rgba,colorchannelmixer", [s.transparency], [afterTint.2], ["transparent"]⟩
  -- lines 199-204: optional split / boxblur / overlay glow block
  let afterGlow : List FilterStage × String :=
    if 0 < s.glow_intensity then
      ([⟨"split", [], ["transparent"], ["glow_input", "main"]⟩,
        ⟨"boxblur", [(glowRadius s : ℚ), 1], ["glow_input"], ["glow"]⟩,
        ⟨"overlay", [], ["glow", "main"], ["glowed"]⟩], "glowed")
    else ([], "transparent")
  -- lines 207-210: optional [last]drawgrid=w=iw:h=sh:t=1:c=cyan@0.3[scanlined]
  let afterScan : List FilterStage × String :=
    if s.scanlines then
      ([⟨"drawgrid", [(scanlineHeight base_height s : ℚ), 1], [afterGlow.2], ["scanlined"]⟩],
       "scanlined")
    else ([], afterGlow.2)
  -- lines 213-217: optional [last]colorchannelmixer=aa=alpha[flickered]
  let afterFlicker : List FilterStage × String :=
    if 0 < s.flicker_intensity then
      ([⟨"colorchannelmixer", [flickerAlpha s], [afterScan.2], ["flickered"]⟩], "flickered")
    else ([], afterScan.2)
  -- line 220: [0:v][last]overlay=x:y:enable=gte(t,0)[output]
  let compositeStage : FilterStage :=
    ⟨"overlay", [(hologramX base_width s : ℚ), (hologramY base_height s : ℚ)],
     ["0:v", afterFlicker.2], ["output"]⟩
  [scaleStage] ++ afterTint.1 ++ [transparencyStage] ++ afterGlow.1 ++
    afterScan.1 ++ afterFlicker.1 ++ [compositeStage]

/-- The operation names of a graph, in emission order. -/
def stageOps (l : List FilterStage) : List String := l.map (fun st => st.op)

/-- The stage order required by spec section 4.2 (scale, tint,
transparency, glow, scanlines, flicker, composite), written from the
spec text, with each spec stage named by the ffmpeg filter that realizes
it.  This definition follows the specification, to be compared with
`buildFilterGraph`. -/
def specStageOrder (s : HologramSettings) : List String :=
  ["scale"] ++
  (if s.blue_tint then ["colorbalance"] else []) ++
  ["format=rgba,colorchannelmixer"] ++
  (if 0 < s.glow_intensity then ["split", "boxblur", "overlay"] else []) ++
  (if s.scanlines then ["drawgrid"] else []) ++
  (if 0 < s.flicker_intensity then ["colorchannelmixer"] else []) ++
  ["overlay"]

/-- A graph has no dangling references when every label a stage consumes
is either one of the two source streams or an output of an earlier
stage. -/
def noDanglingFrom : List String → List FilterStage → Bool
  | _, [] => true
  | avail, st :: rest =>
    st.inputs.all (fun i => avail.contains i) && noDanglingFrom (avail ++ st.outputs) rest

/-- The final stage consumes the base stream `0:v` plus exactly the label
produced by the stage emitted immediately before it. -/
def compositeChained (l : List FilterStage) : Bool :=
  match l.getLast?, l.dropLast.getLast? with
  | some comp, some prev =>
    match comp.inputs, prev.outputs.getLast? with
    | [a, b], some lbl => a == "0:v" && b == lbl
    | _, _ => false
  | _, _ => false

/-- The fields of the `HologramProject` record (server.py 42-59) that the
processing lifecycle reads and writes.  A fresh record (`{}`) matches the
model defaults: status `"created"`, progress 0, all optional fields
absent. -/
structure ProjectRecord where
  base_video_path : Option String := none
  hologram_media_path : Option String := none
  settings : HologramSettings := {}
  status : String := "created"
  output_path : Option String := none
  output_size : Option ℕ := none
  error_message : Option String := none
  processing_progress : ℚ := 0
deriving DecidableEq

/-- The three record mutations performed by `process_hologram_video`:
the transition into processing (server.py 147-150), the success update
(257-268) and the failure update (275-285). -/
inductive RunEvent where
  | start : RunEvent
  | complete : String → ℕ → RunEvent
  | fail : String → RunEvent
deriving DecidableEq

/-- Apply one `$set` update of `process_hologram_video` to the record.
Exactly the listed fields are written; nothing else is touched (in
particular `start` clears neither `error_message` nor `output_path`). -/
def applyEvent (p : ProjectRecord) : RunEvent → ProjectRecord
  | .start =>
      { p with status := "processing", processing_progress := 0 }
  | .complete path size =>
      { p with status := "completed", output_path := some path,
               output_size := some size, processing_progress := 100 }
  | .fail msg =>
      { p with status := "failed", error_message := some msg,
               processing_progress := 0 }

/-- Apply a sequence of run events in order. -/
def applyEvents (p : ProjectRecord) : List RunEvent → ProjectRecord
  | [] => p
  | e :: es => applyEvents (applyEvent p e) es

/-- The record invariants claimed by spec section 3: an output path is
present iff the status is completed, and an error message is present iff
the status is failed. -/
def recordInvariant (p : ProjectRecord) : Prop :=
  (p.output_path.isSome ↔ p.status = "completed") ∧
  (p.error_message.isSome ↔ p.status = "failed")

instance (p : ProjectRecord) : Decidable (recordInvariant p) := by
  unfold recordInvariant; infer_instance

/-- The `process_project` handler (server.py 424-470).  Input: the store
lookup result for the project id, ffmpeg availability, and the request
settings.  Output: the store state after the call and either a
precondition error (the detail string of the raised `HTTPException`) or,
on success, the settings handed to the scheduled background task.  The
guard order and the truthiness tests mirror lines 431-449; on success
line 452 persists the settings and line 458 schedules the task. -/
def processProject (proj : Option ProjectRecord) (ffmpegAvailable : Bool)
    (s : HologramSettings) :
    Option ProjectRecord × Except String HologramSettings :=
  match proj with
  | none => (none, .error "Project not found")
  | some p =>
    if !(pyTruthy p.base_video_path) || !(pyTruthy p.hologram_media_path) then
      (some p, .error "Both base video and hologram media must be uploaded before processing")
    else if p.status == "processing" then
      (some p, .error "Project is already being processed")
    else if !ffmpegAvailable then
      (some p, .error "FFmpeg is not available. Cannot process video.")
    else
      (some { p with settings := s }, .ok s)

/-- The precondition test of `process_project` on an existing record
(server.py 437-444): both asset paths truthy and not already
processing. -/
def passesCheck (p : ProjectRecord) : Bool :=
  pyTruthy p.base_video_path && pyTruthy p.hologram_media_path &&
    !(p.status == "processing")

/-- State of two concurrent `process_project` calls (clients `a` and `b`)
against the shared store record: the stored record, each client's local
copy from its `find_one` read, and whether each client has scheduled the
background task. -/
structure ConcState where
  record : ProjectRecord
  aLocal : Option ProjectRecord := none
  bLocal : Option ProjectRecord := none
  aScheduled : Bool := false
  bScheduled : Bool := false
deriving DecidableEq

/-- The atomic steps of the two concurrent calls.  Each call is the
`find_one` read (server.py 431) followed by the check-and-act suffix
(437-464): the check runs on the local copy, and a passing call persists
its settings and schedules the task.  The store is only read at the read
step — the check is not a compare-and-swap on the stored status. -/
inductive ConcStep where
  | aRead : ConcStep
  | aAct : ConcStep
  | bRead : ConcStep
  | bAct : ConcStep
deriving DecidableEq

def concStep (sA sB : HologramSettings) (st : ConcState) : ConcStep → ConcState
  | .aRead => { st with aLocal := some st.record }
  | .bRead => { st with bLocal := some st.record }
  | .aAct =>
    match st.aLocal with
    | some p =>
      if passesCheck p then
        { st with record := { st.record with settings := sA }, aScheduled := true }
      else st
    | none => st
  | .bAct =>
    match st.bLocal with
    | some p =>
      if passesCheck p then
        { st with record := { st.record with settings := sB }, bScheduled := true }
      else st
    | none => st

def runSteps (sA sB : HologramSettings) (st : ConcState) : List ConcStep → ConcState
  | [] => st
  | c :: cs => runSteps sA sB (concStep sA sB st c) cs

/-- A fresh project ready for processing: both assets uploaded, status
still `"created"`. -/
def freshProject : ProjectRecord :=
  { base_video_path := some "uploads/base.mp4",
    hologram_media_path := some "uploads/holo.png" }

/-- Rounding to one decimal as Python `f"{x:.1f}"` string formatting does:
round half to even on the scaled value. -/
def roundHalfEven (q : ℚ) : ℤ :=
  if q - ⌊q⌋ < 1/2 then ⌊q⌋
  else if 1/2 < q - ⌊q⌋ then ⌊q⌋ + 1
  else if ⌊q⌋ % 2 = 0 then ⌊q⌋ else ⌊q⌋ + 1

/-- Render a nonnegative rational with one decimal place, as Python
`f"{x:.1f}"` renders a float. -/
def renderOneDecimal (q : ℚ) : String :=
  let n := roundHalfEven (q * 10)
  toString (n / 10) ++ "." ++ toString (n.emod 10)

def sizeNames : List String := ["B", "KB", "MB", "GB"]

/-- The while loop of `format_file_size` (server.py 125-127): divide by
1024 while the size is at least 1024 and the unit index is below 3.  The
fuel argument is `3 - i`, so fuel exhaustion is exactly the `i <
len(size_names) - 1` exit. -/
def formatLoopAux : ℕ → ℚ → ℕ → ℚ × ℕ
  | 0, size, i => (size, i)
  | fuel + 1, size, i =>
    if 1024 ≤ size then formatLoopAux fuel (size / 1024) (i + 1) else (size, i)

/-- Server.py 119-128: `format_file_size`. -/
def formatFileSize (n : ℕ) : String :=
  if n = 0 then "0 B"
  else
    let r := formatLoopAux 3 (n : ℚ) 0
    renderOneDecimal r.1 ++ " " ++ (sizeNames.getD r.2 "")

/-- The human-readable message computed by `get_processing_status`
(server.py 482-492).  The completed branch shows the formatted size only
when `output_size` is truthy (neither `None` nor 0); the failed branch
substitutes `"Unknown error"` for a falsy error message. -/
def statusMessage (p : ProjectRecord) : String :=
  if p.status == "created" then "Project created, ready for processing"
  else if p.status == "processing" then
    "Processing... " ++ renderOneDecimal p.processing_progress ++ "% complete"
  else if p.status == "completed" then
    let sizeText :=
      match p.output_size with
      | some n => if n == 0 then "Unknown" else formatFileSize n
      | none => "Unknown"
    "Processing completed! Output file size: " ++ sizeText
  else if p.status == "failed" then
    let errText :=
      match p.error_message with
      | some m => if m.isEmpty then "Unknown error" else m
      | none => "Unknown error"
    "Processing failed: " ++ errText
  else "Status: " ++ p.status

/-- C1: for every validated settings and positive base dimensions, the
graph builder emits its stages in the fixed order scale, blue-tint (if
enabled), transparency, glow (if positive), scanlines (if enabled),
flicker (if positive), composite; every consumed label was produced
earlier (no dangling references); and the composite stage's overlay input
is the output label of the stage emitted just before it. -/
theorem buildFilterGraph_order_wellFormed
    (base_width base_height : ℤ) (s : HologramSettings)
    (hw : 0 < base_width) (hh : 0 < base_height) (hv : Validated s) :
    stageOps (buildFilterGraph base_width base_height s) = specStageOrder s ∧
    noDanglingFrom ["0:v", "1:v"] (buildFilterGraph base_width base_height s) = true ∧
    compositeChained (buildFilterGraph base_width base_height s) = true := by
  by_cases hb : s.blue_tint = true <;> by_cases hg : 0 < s.glow_intensity <;>
    by_cases hsc : s.scanlines = true <;> by_cases hf : 0 < s.flicker_intensity <;>
    simp [buildFilterGraph, specStageOrder, stageOps, noDanglingFrom,
      compositeChained, hb, hg, hsc, hf]

/-- Witness for C1 at the default settings and a 640x480 base. -/
theorem buildFilterGraph_order_wellFormed_witness :
    stageOps (buildFilterGraph 640 480 {}) = specStageOrder {} ∧
    noDanglingFrom ["0:v", "1:v"] (buildFilterGraph 640 480 {}) = true ∧
    compositeChained (buildFilterGraph 640 480 {}) = true :=
  buildFilterGraph_order_wellFormed 640 480 {} (by norm_num) (by norm_num)
    (by unfold Validated; norm_num)

/-- C10: rotation_angle has no effect on graph construction — two
validated settings differing only in the rotation angle yield identical
stage sequences (placement coordinates included). -/
theorem buildFilterGraph_ignores_rotation
    (base_width base_height : ℤ) (s : HologramSettings) (angle : ℚ)
    (hv : Validated s) (h1 : -45 ≤ angle) (h2 : angle ≤ 45) :
    buildFilterGraph base_width base_height { s with rotation_angle := angle } =
      buildFilterGraph base_width base_height s := rfl

/-- Witness for C10 at the default settings, angle 30, on a 640x480 base. -/
theorem buildFilterGraph_ignores_rotation_witness :
    buildFilterGraph 640 480 { rotation_angle := 30 } = buildFilterGraph 640 480 {} :=
  buildFilterGraph_ignores_rotation 640 480 {} 30
    (by unfold Validated; norm_num) (by norm_num) (by norm_num)

/-- If the argument is nonnegative, Python truncation is the floor. -/
theorem pyInt_of_nonneg {q : ℚ} (h : 0 ≤ q) : pyInt q = ⌊q⌋ := if_pos h

/-- One-dimensional bounds for the computed overlay extent and placement:
with a positive base extent, a size fraction in (0,1] and a position
fraction in [0,1], the scaled extent lies in [0, base] and the placement
offset keeps the overlay inside the base. -/
theorem dim_bounds (b : ℤ) (size pos : ℚ)
    (hb : 0 < b) (hs0 : 0 < size) (hs1 : size ≤ 1)
    (hp0 : 0 ≤ pos) (hp1 : pos ≤ 1) :
    0 ≤ pyInt ((b : ℚ) * size) ∧ pyInt ((b : ℚ) * size) ≤ b ∧
    0 ≤ pyInt (((b : ℚ) - (pyInt ((b : ℚ) * size) : ℚ)) * pos) ∧
    pyInt (((b : ℚ) - (pyInt ((b : ℚ) * size) : ℚ)) * pos) +
      pyInt ((b : ℚ) * size) ≤ b := by
  have hbQ : (0 : ℚ) ≤ (b : ℚ) := by exact_mod_cast hb.le
  have hws : 0 ≤ (b : ℚ) * size := mul_nonneg hbQ hs0.le
  rw [pyInt_of_nonneg hws]
  have hw0 : 0 ≤ ⌊(b : ℚ) * size⌋ := Int.le_floor.mpr (by exact_mod_cast hws)
  have hwle : ⌊(b : ℚ) * size⌋ ≤ b := by
    have hle : (b : ℚ) * size ≤ (b : ℚ) := mul_le_of_le_one_right hbQ hs1
    calc ⌊(b : ℚ) * size⌋ ≤ ⌊(b : ℚ)⌋ := Int.floor_le_floor hle
      _ = b := Int.floor_intCast b
  have hwQ : ((⌊(b : ℚ) * size⌋ : ℤ) : ℚ) ≤ (b : ℚ) := by exact_mod_cast hwle
  have harg0 : 0 ≤ ((b : ℚ) - (⌊(b : ℚ) * size⌋ : ℚ)) * pos :=
    mul_nonneg (by linarith) hp0
  rw [pyInt_of_nonneg harg0]
  have hx0 : 0 ≤ ⌊((b : ℚ) - (⌊(b : ℚ) * size⌋ : ℚ)) * pos⌋ :=
    Int.le_floor.mpr (by exact_mod_cast harg0)
  have hxle : ⌊((b : ℚ) - (⌊(b : ℚ) * size⌋ : ℚ)) * pos⌋ ≤ b - ⌊(b : ℚ) * size⌋ := by
    have hle : ((b : ℚ) - (⌊(b : ℚ) * size⌋ : ℚ)) * pos ≤
        (((b - ⌊(b : ℚ) * size⌋ : ℤ) : ℤ) : ℚ) := by
      push_cast
      exact mul_le_of_le_one_right (by linarith) hp1
    calc ⌊((b : ℚ) - (⌊(b : ℚ) * size⌋ : ℚ)) * pos⌋
        ≤ ⌊(((b - ⌊(b : ℚ) * size⌋ : ℤ) : ℤ) : ℚ)⌋ := Int.floor_le_floor hle
      _ = b - ⌊(b : ℚ) * size⌋ := Int.floor_intCast _
  exact ⟨hw0, hwle, hx0, by omega⟩

/-- C4: for validated settings and positive base dimensions, the computed
placement keeps the overlay inside the base frame (0 ≤ x, x + w ≤ base_w,
0 ≤ y, y + h ≤ base_h), and at size 1.0 with position (0,0) the overlay
dimensions equal the base dimensions and the placement is (0,0). -/
theorem placement_in_bounds (base_width base_height : ℤ) (s : HologramSettings)
    (hv : Validated s) (hw : 0 < base_width) (hh : 0 < base_height) :
    (0 ≤ hologramX base_width s ∧
     hologramX base_width s + hologramWidth base_width s ≤ base_width ∧
     0 ≤ hologramY base_height s ∧
     hologramY base_height s + hologramHeight base_height s ≤ base_height) ∧
    (s.hologram_size = 1 → s.hologram_position_x = 0 → s.hologram_position_y = 0 →
      hologramWidth base_width s = base_width ∧
      hologramHeight base_height s = base_height ∧
      hologramX base_width s = 0 ∧ hologramY base_height s = 0) := by
  obtain ⟨hs0, hs1, hx0, hx1, hy0, hy1, -, -, -, -, -, -, -, -⟩ := hv
  have HX := dim_bounds base_width s.hologram_size s.hologram_position_x hw hs0 hs1 hx0 hx1
  have HY := dim_bounds base_height s.hologram_size s.hologram_position_y hh hs0 hs1 hy0 hy1
  constructor
  · exact ⟨HX.2.2.1, by have := HX.2.2.2; unfold hologramX hologramWidth at *; omega,
      HY.2.2.1, by have := HY.2.2.2; unfold hologramY hologramHeight at *; omega⟩
  · intro h1 hpx hpy
    have hwidth : hologramWidth base_width s = base_width := by
      unfold hologramWidth
      rw [h1, mul_one, pyInt_of_nonneg (by exact_mod_cast hw.le), Int.floor_intCast]
    have hheight : hologramHeight base_height s = base_height := by
      unfold hologramHeight
      rw [h1, mul_one, pyInt_of_nonneg (by exact_mod_cast hh.le), Int.floor_intCast]
    refine ⟨hwidth, hheight, ?_, ?_⟩
    · unfold hologramX
      rw [hpx, mul_zero, pyInt_of_nonneg le_rfl, Int.floor_zero]
    · unfold hologramY
      rw [hpy, mul_zero, pyInt_of_nonneg le_rfl, Int.floor_zero]

/-- Witness for C4: default settings on a 640x480 base. -/
theorem placement_in_bounds_witness :
    0 ≤ hologramX 640 {} ∧ hologramX 640 {} + hologramWidth 640 {} ≤ 640 ∧
    0 ≤ hologramY 480 {} ∧ hologramY 480 {} + hologramHeight 480 {} ≤ 480 :=
  (placement_in_bounds 640 480 {} (by unfold Validated; norm_num)
    (by norm_num) (by norm_num)).1

/-- The settings of the end-to-end scenario in spec section 8: size 0.5,
position (1.0, 0.0), glow 0, flicker 0, scanlines off, tint off,
transparency 1.0. -/
def scenarioSettings : HologramSettings :=
  { hologram_size := 1/2, hologram_position_x := 1, hologram_position_y := 0,
    glow_intensity := 0, flicker_intensity := 0, scanlines := false,
    blue_tint := false, rotation_angle := 0, transparency := 1 }

/-- C5: with glow 0, flicker 0, scanlines off and tint off the graph is
exactly the three stages scale, transparency, composite (the transparency
stage is emitted even at transparency 1.0); and in the concrete 640x480
scenario with size 0.5 and position (1.0, 0.0) the overlay is scaled to
320x240 and composited at (320, 0). -/
theorem minimal_stage_set (base_width base_height : ℤ) (s : HologramSettings)
    (hv : Validated s)
    (hg : s.glow_intensity = 0) (hf : s.flicker_intensity = 0)
    (hsc : s.scanlines = false) (hb : s.blue_tint = false) :
    buildFilterGraph base_width base_height s =
      [⟨"scale", [(hologramWidth base_width s : ℚ), (hologramHeight base_height s : ℚ)],
        ["1:v"], ["scaled"]⟩,
       ⟨"format=rgba,colorchannelmixer", [s.transparency], ["scaled"], ["transparent"]⟩,
       ⟨"overlay", [(hologramX base_width s : ℚ), (hologramY base_height s : ℚ)],
        ["0:v", "transparent"], ["output"]⟩] ∧
    buildFilterGraph 640 480 scenarioSettings =
      [⟨"scale", [320, 240], ["1:v"], ["scaled"]⟩,
       ⟨"format=rgba,colorchannelmixer", [1], ["scaled"], ["transparent"]⟩,
       ⟨"overlay", [320, 0], ["0:v", "transparent"], ["output"]⟩] := by
  constructor
  · simp [buildFilterGraph, hg, hf, hsc, hb]
  · have h1 : hologramWidth 640 scenarioSettings = 320 := by
      norm_num [hologramWidth, scenarioSettings, pyInt]
    have h2 : hologramHeight 480 scenarioSettings = 240 := by
      norm_num [hologramHeight, scenarioSettings, pyInt]
    have h3 : hologramX 640 scenarioSettings = 320 := by
      unfold hologramX
      rw [h1]
      norm_num [scenarioSettings, pyInt]
    have h4 : hologramY 480 scenarioSettings = 0 := by
      unfold hologramY
      rw [h2]
      norm_num [scenarioSettings, pyInt]
    have pg : scenarioSettings.glow_intensity = 0 := rfl
    have pf : scenarioSettings.flicker_intensity = 0 := rfl
    have psc : scenarioSettings.scanlines = false := rfl
    have pb : scenarioSettings.blue_tint = false := rfl
    have pt : scenarioSettings.transparency = 1 := rfl
    simp [buildFilterGraph, h1, h2, h3, h4, pg, pf, psc, pb, pt]

/-- Witness for C5, instantiating the universal part at the scenario
settings themselves. -/
theorem minimal_stage_set_witness :
    buildFilterGraph 640 480 scenarioSettings =
      [⟨"scale", [(hologramWidth 640 scenarioSettings : ℚ),
        (hologramHeight 480 scenarioSettings : ℚ)], ["1:v"], ["scaled"]⟩,
       ⟨"format=rgba,colorchannelmixer", [scenarioSettings.transparency],
        ["scaled"], ["transparent"]⟩,
       ⟨"overlay", [(hologramX 640 scenarioSettings : ℚ),
        (hologramY 480 scenarioSettings : ℚ)], ["0:v", "transparent"], ["output"]⟩] :=
  (minimal_stage_set 640 480 scenarioSettings
    (by unfold Validated scenarioSettings; norm_num)
    rfl rfl rfl rfl).1

/-- Validated settings whose size fraction (0.05) yields a zero overlay
width and height on a 10x10 base. -/
def smallSizeSettings : HologramSettings := { hologram_size := 1/20 }

/-- Counterexample to C3: at a validated size of 0.05 on a 10x10 base the
computed overlay dimensions are 0, yet graph construction does not abort —
it emits the scale stage with the zero target dimensions. -/
theorem no_zero_dim_validation :
    Validated smallSizeSettings ∧
    hologramWidth 10 smallSizeSettings = 0 ∧
    hologramHeight 10 smallSizeSettings = 0 ∧
    (buildFilterGraph 10 10 smallSizeSettings).head? =
      some ⟨"scale", [0, 0], ["1:v"], ["scaled"]⟩ := by
  have hw0 : hologramWidth 10 smallSizeSettings = 0 := by
    norm_num [hologramWidth, smallSizeSettings, pyInt]
  have hh0 : hologramHeight 10 smallSizeSettings = 0 := by
    norm_num [hologramHeight, smallSizeSettings, pyInt]
  refine ⟨by unfold Validated smallSizeSettings; norm_num, hw0, hh0, ?_⟩
  simp [buildFilterGraph, hw0, hh0]

/-- C3 amended: the builder performs no zero-dimension validation.  Even
when the computed overlay width or height is 0 it emits the scale stage
with that zero target dimension as the first stage and completes the
graph in the usual stage order (no validation error exists). -/
theorem scale_stage_emitted_even_if_zero (base_width base_height : ℤ)
    (s : HologramSettings)
    (hz : hologramWidth base_width s = 0 ∨ hologramHeight base_height s = 0) :
    (buildFilterGraph base_width base_height s).head? =
      some ⟨"scale", [(hologramWidth base_width s : ℚ),
        (hologramHeight base_height s : ℚ)], ["1:v"], ["scaled"]⟩ ∧
    stageOps (buildFilterGraph base_width base_height s) = specStageOrder s := by
  constructor
  · rfl
  · by_cases hb : s.blue_tint = true <;> by_cases hg : 0 < s.glow_intensity <;>
      by_cases hsc : s.scanlines = true <;> by_cases hf : 0 < s.flicker_intensity <;>
      simp [buildFilterGraph, specStageOrder, stageOps, hb, hg, hsc, hf]

/-- Witness for the amended C3 at the 10x10 base with size 0.05. -/
theorem scale_stage_emitted_even_if_zero_witness :
    (buildFilterGraph 10 10 smallSizeSettings).head? =
      some ⟨"scale", [(hologramWidth 10 smallSizeSettings : ℚ),
        (hologramHeight 10 smallSizeSettings : ℚ)], ["1:v"], ["scaled"]⟩ ∧
    stageOps (buildFilterGraph 10 10 smallSizeSettings) =
      specStageOrder smallSizeSettings :=
  scale_stage_emitted_even_if_zero 10 10 smallSizeSettings
    (Or.inl (by norm_num [hologramWidth, smallSizeSettings, pyInt]))

/-- Validated settings with glow intensity 0.27 (all other fields
default). -/
def glowSettings : HologramSettings := { glow_intensity := 27/100 }

/-- Counterexample to C6: at glow intensity 0.27 the emitted boxblur
radius is `max(2, int(2.7)) = 2`, while the claimed formula
`max(2, round(2.7))` gives 3 — the code truncates, it does not round to
nearest. -/
theorem glow_radius_truncates_not_rounds :
    Validated glowSettings ∧ 0 < glowSettings.glow_intensity ∧
    (buildFilterGraph 640 480 glowSettings).filter (fun st => st.op == "boxblur") =
      [⟨"boxblur", [(glowRadius glowSettings : ℚ), 1], ["glow_input"], ["glow"]⟩] ∧
    glowRadius glowSettings = 2 ∧
    max 2 (round (glowSettings.glow_intensity * 10)) = 3 := by
  have hg : 0 < glowSettings.glow_intensity := by norm_num [glowSettings]
  have pb : glowSettings.blue_tint = true := rfl
  have psc : glowSettings.scanlines = true := rfl
  have pf : 0 < glowSettings.flicker_intensity := by norm_num [glowSettings]
  refine ⟨by unfold Validated glowSettings; norm_num, hg, ?_, ?_, ?_⟩
  · simp [buildFilterGraph, hg, pb, psc, pf, List.filter]
  · norm_num [glowRadius, glowSettings, pyInt]
  · norm_num [glowSettings, round_eq]

/-- C6 amended: for every positive glow intensity the boxblur radius of
the emitted glow stage is `max(2, floor(glow_intensity * 10))` — the
fractional part is truncated, not rounded to nearest. -/
theorem glow_radius_formula (base_width base_height : ℤ) (s : HologramSettings)
    (hv : Validated s) (hg : 0 < s.glow_intensity) :
    glowRadius s = max 2 ⌊s.glow_intensity * 10⌋ ∧
    (buildFilterGraph base_width base_height s).filter
        (fun st => st.op == "boxblur") =
      [⟨"boxblur", [(glowRadius s : ℚ), 1], ["glow_input"], ["glow"]⟩] := by
  constructor
  · unfold glowRadius
    rw [pyInt_of_nonneg (mul_nonneg hg.le (by norm_num))]
  · by_cases hb : s.blue_tint = true <;> by_cases hsc : s.scanlines = true <;>
      by_cases hf : 0 < s.flicker_intensity <;>
      simp [buildFilterGraph, hg, hb, hsc, hf, List.filter]

/-- Witness for the amended C6 at glow intensity 0.27 on a 640x480
base. -/
theorem glow_radius_formula_witness :
    glowRadius glowSettings = max 2 ⌊glowSettings.glow_intensity * 10⌋ ∧
    (buildFilterGraph 640 480 glowSettings).filter
        (fun st => st.op == "boxblur") =
      [⟨"boxblur", [(glowRadius glowSettings : ℚ), 1], ["glow_input"], ["glow"]⟩] :=
  glow_radius_formula 640 480 glowSettings
    (by unfold Validated glowSettings; norm_num) (by norm_num [glowSettings])

/-- Counterexample to C2: starting, failing, then re-starting a project
leaves the record in status `"processing"` with the stale error message
still present — the transition into processing (server.py 147-150) clears
neither `error_message` nor `output_path`, so the claimed biconditionals
fail under a re-start after a failed run. -/
theorem stale_error_after_restart :
    (applyEvents {} [.start, .fail "boom", .start]).status = "processing" ∧
    (applyEvents {} [.start, .fail "boom", .start]).error_message = some "boom" ∧
    ¬ recordInvariant (applyEvents {} [.start, .fail "boom", .start]) := by
  refine ⟨rfl, rfl, ?_⟩
  intro h
  have hst := h.2.mp (by rfl)
  simp [applyEvents, applyEvent] at hst

/-- C2 amended: progress is reset to 0 on every transition into
processing and into failed; the output-path and error-message
biconditionals hold on a fresh record and after any single run (start,
then at most one terminal event); but a re-start after a failed run keeps
the stale error message, and a re-start after a completed run keeps the
stale output path, so the biconditionals do not survive re-processing. -/
theorem run_invariants :
    (∀ p : ProjectRecord, (applyEvent p .start).processing_progress = 0) ∧
    (∀ (p : ProjectRecord) (m : String),
      (applyEvent p (.fail m)).processing_progress = 0) ∧
    recordInvariant ({} : ProjectRecord) ∧
    recordInvariant (applyEvents ({} : ProjectRecord) [.start]) ∧
    (∀ m, recordInvariant (applyEvents ({} : ProjectRecord) [.start, .fail m])) ∧
    (∀ path size,
      recordInvariant (applyEvents ({} : ProjectRecord) [.start, .complete path size])) ∧
    (∀ m, (applyEvents ({} : ProjectRecord) [.start, .fail m, .start]).error_message =
      some m) ∧
    (∀ path size,
      (applyEvents ({} : ProjectRecord)
        [.start, .complete path size, .start]).output_path = some path) := by
  refine ⟨fun p => rfl, fun p m => rfl, by decide, by decide, fun m => ?_,
    fun path size => ?_, fun m => rfl, fun path size => rfl⟩
  · simp [applyEvents, applyEvent, recordInvariant]
  · simp [applyEvents, applyEvent, recordInvariant]

/-- C7: every precondition failure of `process_project` (project missing,
an asset path unset/empty, already processing — and also the ffmpeg
check) returns an error and leaves the stored record exactly as it was;
on success the settings are persisted on the record and the background
task is scheduled with those settings. -/
theorem process_request_contract (proj : Option ProjectRecord)
    (ffmpegAvailable : Bool) (s : HologramSettings) :
    (∀ e, (processProject proj ffmpegAvailable s).2 = .error e →
      (processProject proj ffmpegAvailable s).1 = proj) ∧
    ((processProject none ffmpegAvailable s).2 = .error "Project not found") ∧
    (∀ p, proj = some p →
      (pyTruthy p.base_video_path = false ∨ pyTruthy p.hologram_media_path = false) →
      processProject proj ffmpegAvailable s =
        (some p, .error "Both base video and hologram media must be uploaded before processing")) ∧
    (∀ p, proj = some p → pyTruthy p.base_video_path = true →
      pyTruthy p.hologram_media_path = true → p.status = "processing" →
      processProject proj ffmpegAvailable s =
        (some p, .error "Project is already being processed")) ∧
    (∀ p, proj = some p → pyTruthy p.base_video_path = true →
      pyTruthy p.hologram_media_path = true → p.status ≠ "processing" →
      ffmpegAvailable = true →
      processProject proj ffmpegAvailable s =
        (some { p with settings := s }, .ok s)) := by
  refine ⟨?_, rfl, ?_, ?_, ?_⟩
  · intro e he
    match proj with
    | none => rfl
    | some p =>
      by_cases h1 : (!(pyTruthy p.base_video_path) || !(pyTruthy p.hologram_media_path)) = true
      · simp [processProject, h1]
      · by_cases h2 : (p.status == "processing") = true
        · simp [processProject, h1, h2]
        · by_cases h3 : ffmpegAvailable = true
          · rw [show processProject (some p) ffmpegAvailable s =
                (some { p with settings := s }, .ok s) by
                simp [processProject, h1, h2, h3]] at he
            simp at he
          · simp [processProject, h1, h2, h3]
  · rintro p rfl hfalsy
    have h1 : (!(pyTruthy p.base_video_path) || !(pyTruthy p.hologram_media_path)) = true := by
      rcases hfalsy with h | h <;> simp [h]
    simp [processProject, h1]
  · rintro p rfl hb hm hst
    simp [processProject, hb, hm, hst]
  · rintro p rfl hb hm hst hf
    simp [processProject, hb, hm, hst, hf]

/-- Witness for C7: a successful start on a fresh project with both
assets uploaded. -/
theorem process_request_contract_witness :
    processProject (some freshProject) true {} =
      (some { freshProject with settings := ({} : HologramSettings) },
       .ok ({} : HologramSettings)) :=
  (process_request_contract (some freshProject) true {}).2.2.2.2 freshProject rfl
    rfl rfl (by decide) rfl

/-- C8 evidence: `process_project` reads the record (`find_one`) and then
checks the status on that local copy — there is no atomic check-and-set.
In the interleaving read-A, read-B, act-A, act-B on the same fresh
project, both calls pass the "not already processing" check and both
schedule the background processing task, contradicting the claim that at
most one concurrent start can proceed. -/
theorem concurrent_start_both_proceed :
    passesCheck freshProject = true ∧
    (runSteps {} {} { record := freshProject }
      [.aRead, .bRead, .aAct, .bAct]).aScheduled = true ∧
    (runSteps {} {} { record := freshProject }
      [.aRead, .bRead, .aAct, .bAct]).bScheduled = true :=
  ⟨rfl, rfl, rfl⟩

/-- A completed record whose output file was missing at stat time
(server.py 254 records size 0), as produced by the success path itself. -/
def zeroSizeCompleted : ProjectRecord :=
  { status := "completed", output_path := some "processed/out.mp4",
    output_size := some 0 }

/-- Counterexample to C9: for a completed project with `output_size = 0`
the status message shows `"Unknown"` (Python falsiness of 0 at
server.py 487), not the formatted size `"0 B"` — the formatted output
size is not included in the message. -/
theorem completed_zero_size_shows_unknown :
    formatFileSize 0 = "0 B" ∧
    statusMessage zeroSizeCompleted =
      "Processing completed! Output file size: Unknown" ∧
    ¬ ((formatFileSize 0).data <:+: (statusMessage zeroSizeCompleted).data) :=
  ⟨rfl, rfl, by decide⟩

/-- C9 amended: for a completed project whose recorded output size is
present and nonzero, the status message is the completion text carrying
the human-readable formatted size (dividing by 1024 below units B, KB,
MB, GB with one decimal place); 1536000 bytes format as "1.5 MB"; and for
a failed project the stored error message appears in the status
message. -/
theorem status_message_contract :
    (∀ (p : ProjectRecord) (n : ℕ), p.status = "completed" →
      p.output_size = some n → n ≠ 0 →
      statusMessage p = "Processing completed! Output file size: " ++ formatFileSize n) ∧
    formatFileSize 1536000 = "1.5 MB" ∧
    (∀ (p : ProjectRecord) (m : String), p.status = "failed" →
      p.error_message = some m → m.data <:+: (statusMessage p).data) := by
  refine ⟨?_, ?_, ?_⟩
  · intro p n h1 h2 h3
    simp [statusMessage, h1, h2, h3]
  · norm_num [formatFileSize, formatLoopAux, renderOneDecimal, roundHalfEven, sizeNames]
    decide
  · intro p m h1 h2
    by_cases hm : m.isEmpty = true
    · have : m = "" := (String.isEmpty_iff m).mp hm
      subst this
      exact List.nil_infix
    · have hmsg : statusMessage p = "Processing failed: " ++ m := by
        simp [statusMessage, h1, h2, hm]
      rw [hmsg]
      exact (List.suffix_append "Processing failed: ".data m.data).isInfix

/-- Witness for the amended C9 at a completed record of 1536000 bytes. -/
theorem status_message_contract_witness :
    statusMessage { status := "completed",
                    output_path := some "processed/out.mp4",
                    output_size := some 1536000 } =
      "Processing completed! Output file size: " ++ formatFileSize 1536000 :=
  status_message_contract.1
    { status := "completed",
      output_path := some "processed/out.mp4",
      output_size := some 1536000 } 1536000 rfl rfl (by norm_num)
